import Mathlib

/-!
# Verification of the behaviorfleets delegation protocol

Shallow embedding of the two protocol state machines of the repository:

* `BF.DelegateActionNodeAny` (file `DelegateActionNodeAny.cpp`) — the
  delegator: a behavior-tree action node that polls for a remote worker,
  binds to the first poll answer received, publishes the mission tree to
  the bound worker, and tracks the worker's reported status.
* `BF.RemoteDelegateActionNode` (file `RemoteDelegateActionNode.cpp`) — the
  worker: answers polls matching its capability tag, accepts the mission
  command addressed to it, builds the behavior tree and executes it one
  tick per control cycle, reporting status.

Message delivery and the periodic tick are serialized within one agent, so
each callback / tick handler is embedded as a pure function from the
agent's state (and the incoming message or engine-step result) to the new
state together with the list of messages published during the call, each
tagged with the channel (topic) it is published on.  ROS publications are
fire-and-forget, so the output list fully captures the call's effect.

The behavior-tree engine (behaviortree_cpp) is external to the repository;
its interaction surface is a build step that may throw
(`create_tree`'s try/catch) and a step function returning one of
RUNNING / SUCCESS / FAILURE (`tree_.rootNode()->executeTick()`).  Both are
embedded as parameters: a `Bool` build outcome and a `NodeStatus` step
result; a counter records how many times the step function is invoked.
-/

namespace BF

/-- Result of one invocation of the external behavior-tree engine's step
function (`BT::NodeStatus` as returned by `executeTick` for a root tick;
the engine contract of the spec restricts it to these three values). -/
inductive NodeStatus where
  | running
  | success
  | failure
deriving DecidableEq, Repr

/-! ## Message schemas (`bf_msgs`)

The message packages are not part of the repository's two source files;
the fields below are exactly the fields the two source files read or
write.  The numeric constants stand for the `uint8` constants of
`bf_msgs::msg::Mission`; their concrete values are irrelevant to every
claim (only their distinctness within each group matters). -/

/-- `bf_msgs::msg::Mission` as used by `RemoteDelegateActionNode.cpp`:
`msg_type`, `robot_id`, `mission_id`, `status`, `mission_tree`,
`plugins`.  Unset fields default to empty, as in ROS messages. -/
structure Mission where
  msg_type : Nat := 0
  robot_id : String := ""
  mission_id : String := ""
  status : Nat := 0
  mission_tree : String := ""
  plugins : List String := []
deriving DecidableEq, Repr

/-- `bf_msgs::msg::Mission::COMMAND`. -/
def Mission.COMMAND : Nat := 0
/-- `bf_msgs::msg::Mission::STATUS`. -/
def Mission.STATUS : Nat := 1
/-- `bf_msgs::msg::Mission::REQUEST`. -/
def Mission.REQUEST : Nat := 2

/-- `bf_msgs::msg::Mission::RUNNING`. -/
def Mission.RUNNING : Nat := 0
/-- `bf_msgs::msg::Mission::SUCCESS`. -/
def Mission.SUCCESS : Nat := 1
/-- `bf_msgs::msg::Mission::FAILURE`. -/
def Mission.FAILURE : Nat := 2
/-- `bf_msgs::msg::Mission::IDLE`. -/
def Mission.IDLE : Nat := 3

/-- `bf_msgs::msg::MissionStatus` as used by `DelegateActionNodeAny.cpp`
(the poll-answer / status message type of the delegator's side): the file
reads `robot_id` and `status`; `mission_id` correlates the message to a
round. -/
structure MissionStatus where
  robot_id : String := ""
  mission_id : String := ""
  status : Nat := 0
deriving DecidableEq, Repr

/-- `bf_msgs::msg::MissionCommand` as used by `DelegateActionNodeAny.cpp`:
the file writes `robot_id`, `mission_id` and `mission_tree`. -/
structure MissionCommand where
  robot_id : String := ""
  mission_id : String := ""
  mission_tree : String := ""
deriving DecidableEq, Repr

/-- The status codes `DelegateActionNodeAny.cpp` compares
`remote_status_->status` against (its `RUNNING` / `SUCCESS` / `FAILURE`
constants). -/
def ST_RUNNING : Nat := 0

/-- Delegator-side `SUCCESS` status code. -/
def ST_SUCCESS : Nat := 1

/-- Delegator-side `FAILURE` status code. -/
def ST_FAILURE : Nat := 2

/-- A publication: the topic name it is sent on, paired with the message. -/
abbrev Pub (α : Type) := String × α

/-! ## Delegator: `DelegateActionNodeAny` -/

/-- The mutable member state of `DelegateActionNodeAny`:
`remote_id_`, `remote_tree_`, `mission_id_`, `remote_identified_`,
`poll_answ_`, `remote_status_`, plus the topics of the publishers and
subscriptions the node (re)creates at run time (`mission_pub_` is
re-created on a per-robot topic when a poll answer binds the node;
`remote_sub_` is created at the same moment). -/
structure DelState where
  remote_id : String
  remote_tree : String
  mission_id : String
  remote_identified : Bool
  poll_answ : Option MissionStatus
  remote_status : Option MissionStatus
  mission_pub_topic : String
  remote_sub_topic : Option String
deriving DecidableEq, Repr

namespace DelegateActionNodeAny

/-- The delegator state right after the constructor body: `remote_id_` is
`"not_set"`, `remote_tree_` holds the file contents read from disk (a
parameter here), nothing is identified yet, and `mission_pub_` is on
`/mission_command`. -/
def initState (remote_tree mission_id : String) : DelState :=
  { remote_id := "not_set"
    remote_tree := remote_tree
    mission_id := mission_id
    remote_identified := false
    poll_answ := none
    remote_status := none
    mission_pub_topic := "/mission_command"
    remote_sub_topic := none }

/-- `DelegateActionNodeAny::remote_status_callback`: stores the incoming
status message in `remote_status_`. -/
def remote_status_callback (s : DelState) (msg : MissionStatus) : DelState :=
  { s with remote_status := some msg }

/-- `DelegateActionNodeAny::mission_poll_callback`: if the node has not
yet identified a remote, the incoming message binds it — `poll_answ_` and
`remote_id_` are set from the message, a status subscription and a
per-robot command publisher are created, the mission tree is published as
a `MissionCommand` with `robot_id = remote_id_`, and
`remote_identified_` becomes true.  Otherwise the message is ignored.
Note the code performs no check of the message's `mission_id`. -/
def mission_poll_callback (s : DelState) (msg : MissionStatus) :
    DelState × List (Pub MissionCommand) :=
  if s.remote_identified then
    (s, [])
  else
    let rid := msg.robot_id
    ({ s with
        poll_answ := some msg
        remote_id := rid
        remote_sub_topic := some ("/" ++ rid ++ "/mission_status")
        mission_pub_topic := "/" ++ rid ++ "/mission_command"
        remote_identified := true },
     [("/" ++ rid ++ "/mission_command",
       { robot_id := rid, mission_tree := s.remote_tree })])

/-- `DelegateActionNodeAny::tick`: while no remote is identified, a
`MissionCommand` carrying only `mission_id_` (the poll) is published on
the current `mission_pub_` topic and the node stays RUNNING.  Once
identified, the last received remote status is mapped to the returned
`BT::NodeStatus`; with no status yet (or an unrecognized code) the node
returns RUNNING.  The member state is never modified by `tick`. -/
def tick (s : DelState) : DelState × List (Pub MissionCommand) × NodeStatus :=
  if s.remote_identified = false then
    (s, [(s.mission_pub_topic, { mission_id := s.mission_id })], .running)
  else
    match s.remote_status with
    | none => (s, [], .running)
    | some m =>
      if m.status = ST_RUNNING then (s, [], .running)
      else if m.status = ST_SUCCESS then (s, [], .success)
      else if m.status = ST_FAILURE then (s, [], .failure)
      else (s, [], .running)

/-- Sequential delivery of a list of poll-answer messages to the
delegator (callbacks are serialized on the node's executor), collecting
every `MissionCommand` published along the way. -/
def deliverClaims : DelState → List MissionStatus →
    DelState × List (Pub MissionCommand)
  | s, [] => (s, [])
  | s, m :: rest =>
    let out := mission_poll_callback s m
    let out' := deliverClaims out.1 rest
    (out'.1, out.2 ++ out'.2)

/-- Iterated `tick`:  `n` consecutive ticks with no intervening message,
collecting every publication. -/
def tickN : Nat → DelState → DelState × List (Pub MissionCommand)
  | 0, s => (s, [])
  | n + 1, s =>
    let out := tick s
    let out' := tickN n out.1
    (out'.1, out.2.1 ++ out'.2)

end DelegateActionNodeAny

/-! ## Worker: `RemoteDelegateActionNode` -/

/-- The mutable member state of `RemoteDelegateActionNode`: `id_`,
`mission_id_` (the capability tag), `working_`, `can_do_it_`, and
`mission_` (the last stored mission message). -/
structure WorkerState where
  id : String
  mission_id : String
  working : Bool
  can_do_it : Bool
  mission : Option Mission
deriving DecidableEq, Repr

namespace RemoteDelegateActionNode

/-- Worker state after `init()`: not working; `can_do_it_` is false until
the first acceptable poll arrives (the member default). -/
def initState (id mission_id : String) : WorkerState :=
  { id := id
    mission_id := mission_id
    working := false
    can_do_it := false
    mission := none }

/-- The worker's private status topic, `/<<id>>/mission_status`. -/
def statusTopic (id : String) : String := "/" ++ id ++ "/mission_status"

/-- A status message as `control_cycle` / `create_tree` construct it:
`msg_type = STATUS`, `robot_id = id_`, with the given status code. -/
def statusMsg (id : String) (st : Nat) : Mission :=
  { msg_type := Mission.STATUS, robot_id := id, status := st }

/-- `RemoteDelegateActionNode::create_tree`: plugin loading and
`createTreeFromText` are the external engine's build step, abstracted by
`buildOk`.  On success it returns true publishing nothing; on an
exception the catch block publishes a status message with
`status = IDLE` on the worker's status topic and returns false. -/
def create_tree (s : WorkerState) (buildOk : Bool) :
    Bool × List (Pub Mission) :=
  if buildOk then (true, [])
  else (false, [(statusTopic s.id, statusMsg s.id Mission.IDLE)])

/-- The status code `control_cycle` publishes for each engine step
result (the switch on `BT::NodeStatus`). -/
def statusCode : NodeStatus → Nat
  | .running => Mission.RUNNING
  | .success => Mission.SUCCESS
  | .failure => Mission.FAILURE

/-- `RemoteDelegateActionNode::control_cycle`: the third component counts
invocations of the engine's step function (`executeTick`).  If
`working_`, the tree is ticked once and the result is published as a
status (`RUNNING` keeps `working_`; `SUCCESS` / `FAILURE` clear it).  If
not working and `can_do_it_`, the locally prepared IDLE status is *not*
published.  If not working and not `can_do_it_`, a FAILURE status is
published. -/
def control_cycle (s : WorkerState) (stepResult : NodeStatus) :
    WorkerState × List (Pub Mission) × Nat :=
  if s.working then
    match stepResult with
    | .running =>
      (s, [(statusTopic s.id, statusMsg s.id Mission.RUNNING)], 1)
    | .success =>
      ({ s with working := false },
       [(statusTopic s.id, statusMsg s.id Mission.SUCCESS)], 1)
    | .failure =>
      ({ s with working := false },
       [(statusTopic s.id, statusMsg s.id Mission.FAILURE)], 1)
  else if s.can_do_it then
    (s, [], 0)
  else
    (s, [(statusTopic s.id, statusMsg s.id Mission.FAILURE)], 0)

/-- `RemoteDelegateActionNode::mission_poll_callback`: non-COMMAND
messages are dropped; while `working_` the poll is ignored.  Otherwise
`can_do_it_` is set and the message stored in `mission_`; a non-empty
`robot_id` different from `id_` drops the request; if the poll's
`mission_id` equals the worker's capability tag, a REQUEST (claim)
message carrying the worker's id is published on `/mission_poll`. -/
def mission_poll_callback (s : WorkerState) (msg : Mission) :
    WorkerState × List (Pub Mission) :=
  if msg.msg_type ≠ Mission.COMMAND then
    (s, [])
  else if s.working = false then
    let s' := { s with can_do_it := true, mission := some msg }
    if 0 < msg.robot_id.length ∧ msg.robot_id ≠ s.id then
      (s', [])
    else if msg.mission_id = s.mission_id then
      (s', [("/mission_poll",
             { msg_type := Mission.REQUEST, robot_id := s.id,
               mission_id := s.mission_id, status := Mission.IDLE })])
    else
      (s', [])
  else
    (s, [])

/-- `RemoteDelegateActionNode::mission_callback`: non-COMMAND messages
are dropped; while `working_` the command is ignored.  Otherwise the
message is stored in `mission_` first; if its `robot_id` equals `id_`,
`create_tree` runs and its outcome is assigned to both `working_` and
`can_do_it_`; otherwise nothing further happens (but `mission_` has
already been overwritten). -/
def mission_callback (s : WorkerState) (msg : Mission) (buildOk : Bool) :
    WorkerState × List (Pub Mission) :=
  if msg.msg_type ≠ Mission.COMMAND then
    (s, [])
  else if s.working = false then
    let s' := { s with mission := some msg }
    if msg.robot_id = s.id then
      let built := create_tree s' buildOk
      ({ s' with working := built.1, can_do_it := built.1 }, built.2)
    else
      (s', [])
  else
    (s, [])

/-- Iterated `control_cycle` over a list of engine step results (the
result consumed only on cycles that actually tick the tree is immaterial:
each cycle is given the corresponding entry).  Returns the final state,
all publications, and the total number of engine step invocations. -/
def runCycles : WorkerState → List NodeStatus →
    WorkerState × List (Pub Mission) × Nat
  | s, [] => (s, [], 0)
  | s, r :: rest =>
    let out := control_cycle s r
    let out' := runCycles out.1 rest
    (out'.1, out.2.1 ++ out'.2.1, out.2.2 + out'.2.2)

end RemoteDelegateActionNode

end BF

/-! ## Helper lemmas -/

namespace BF

open DelegateActionNodeAny RemoteDelegateActionNode

/-- Once the delegator is identified, a poll-answer message is a no-op. -/
theorem mission_poll_callback_identified (s : DelState) (m : MissionStatus)
    (h : s.remote_identified = true) :
    DelegateActionNodeAny.mission_poll_callback s m = (s, []) := by
  simp [DelegateActionNodeAny.mission_poll_callback, h]

/-- Once the delegator is identified, any sequence of poll-answer
messages leaves the state unchanged and publishes nothing. -/
theorem deliverClaims_identified (s : DelState) (ms : List MissionStatus)
    (h : s.remote_identified = true) :
    deliverClaims s ms = (s, []) := by
  induction ms with
  | nil => simp [deliverClaims]
  | cons m rest ih =>
    simp [deliverClaims, mission_poll_callback_identified s m h, ih]

/-- A control cycle of a non-working worker neither changes the state nor
invokes the engine's step function. -/
theorem control_cycle_not_working (s : WorkerState) (r : NodeStatus)
    (h : s.working = false) :
    (control_cycle s r).1 = s ∧ (control_cycle s r).2.2 = 0 := by
  by_cases hc : s.can_do_it <;> simp [control_cycle, h, hc]

/-- While the worker is not working, no number of control cycles ever
invokes the engine's step function. -/
theorem runCycles_steps_zero (s : WorkerState) (rs : List NodeStatus)
    (h : s.working = false) :
    (runCycles s rs).2.2 = 0 := by
  induction rs with
  | nil => simp [runCycles]
  | cons r rest ih =>
    have hc := control_cycle_not_working s r h
    simp [runCycles, hc.1, hc.2, ih]

/-- A worker that is neither working nor capable republishes a FAILURE
status on every control cycle, with no state change and no engine step. -/
theorem runCycles_incapable (s : WorkerState) (rs : List NodeStatus)
    (h1 : s.working = false) (h2 : s.can_do_it = false) :
    runCycles s rs =
      (s, List.replicate rs.length (statusTopic s.id, statusMsg s.id Mission.FAILURE), 0) := by
  induction rs with
  | nil => simp [runCycles]
  | cons r rest ih =>
    have hc : control_cycle s r =
        (s, [(statusTopic s.id, statusMsg s.id Mission.FAILURE)], 0) := by
      simp [control_cycle, h1, h2]
    simp [runCycles, hc, ih, List.replicate_succ]

end BF

/-! ## Claims -/

namespace BF

open DelegateActionNodeAny RemoteDelegateActionNode

/-- C1: for any sequence of poll-answer (Claim) messages delivered to a
delegator that has not yet identified a remote, exactly one
`MissionCommand` carrying the mission tree is published, on the command
topic of (and addressed to) the `robot_id` of the first message
processed; every message after the first causes no publication and no
state change (the final state is the state reached after the first
message alone). -/
theorem C1_first_claim_wins (s : DelState) (m : MissionStatus)
    (rest : List MissionStatus) (h : s.remote_identified = false) :
    deliverClaims s (m :: rest) =
      ((DelegateActionNodeAny.mission_poll_callback s m).1,
       [("/" ++ m.robot_id ++ "/mission_command",
         { robot_id := m.robot_id, mission_tree := s.remote_tree })]) := by
  have h1 : DelegateActionNodeAny.mission_poll_callback s m =
      ({ s with
          poll_answ := some m
          remote_id := m.robot_id
          remote_sub_topic := some ("/" ++ m.robot_id ++ "/mission_status")
          mission_pub_topic := "/" ++ m.robot_id ++ "/mission_command"
          remote_identified := true },
       [("/" ++ m.robot_id ++ "/mission_command",
         { robot_id := m.robot_id, mission_tree := s.remote_tree })]) := by
    simp [DelegateActionNodeAny.mission_poll_callback, h]
  simp [deliverClaims, h1, deliverClaims_identified]

/-- C1 witness: a delegator fresh from the constructor receiving two
claims, from `w1` then `w2`, publishes one command, to `w1`. -/
theorem C1_first_claim_wins_witness :
    deliverClaims (DelegateActionNodeAny.initState "t" "m1")
        [{ robot_id := "w1", mission_id := "m1" },
         { robot_id := "w2", mission_id := "m1" }] =
      ((DelegateActionNodeAny.mission_poll_callback (DelegateActionNodeAny.initState "t" "m1")
          { robot_id := "w1", mission_id := "m1" }).1,
       [("/" ++ "w1" ++ "/mission_command",
         { robot_id := "w1", mission_tree := "t" })]) :=
  C1_first_claim_wins (DelegateActionNodeAny.initState "t" "m1")
    { robot_id := "w1", mission_id := "m1" }
    [{ robot_id := "w2", mission_id := "m1" }] rfl

/-- C2 counterexample: a delegator awaiting a claim for mission `m1`
receives a claim whose `mission_id` is `zzz`; contrary to the claim, it
binds (`remote_identified` becomes true, `remote_id` becomes the sender)
and publishes a command. -/
theorem C2_counterexample :
    (DelegateActionNodeAny.mission_poll_callback (DelegateActionNodeAny.initState "t" "m1")
        { robot_id := "w2", mission_id := "zzz" }).1.remote_identified = true ∧
    (DelegateActionNodeAny.mission_poll_callback (DelegateActionNodeAny.initState "t" "m1")
        { robot_id := "w2", mission_id := "zzz" }).1.remote_id = "w2" ∧
    (DelegateActionNodeAny.mission_poll_callback (DelegateActionNodeAny.initState "t" "m1")
        { robot_id := "w2", mission_id := "zzz" }).2.length = 1 ∧
    "zzz" ≠ (DelegateActionNodeAny.initState "t" "m1").mission_id := by
  refine ⟨rfl, rfl, rfl, ?_⟩
  decide

/-- C2 (amended): the delegator's claim handler accepts a claim whenever
the delegator has not yet identified a remote, regardless of the
envelope's `mission_id` — the handler performs no `mission_id` check, so
a claim carrying any other `mission_id` still binds the delegator and
still triggers the command publication. -/
theorem C2_no_mission_id_check (s : DelState) (m : MissionStatus)
    (h : s.remote_identified = false) (_hm : m.mission_id ≠ s.mission_id) :
    (DelegateActionNodeAny.mission_poll_callback s m).1.remote_identified = true ∧
    (DelegateActionNodeAny.mission_poll_callback s m).2 =
      [("/" ++ m.robot_id ++ "/mission_command",
        { robot_id := m.robot_id, mission_tree := s.remote_tree })] := by
  simp [DelegateActionNodeAny.mission_poll_callback, h]

/-- C2 witness: the amended claim at the counterexample's input. -/
theorem C2_no_mission_id_check_witness :
    ((DelegateActionNodeAny.initState "t" "m1").remote_identified = false ∧
     ("zzz" : String) ≠ "m1") ∧
    ((DelegateActionNodeAny.mission_poll_callback (DelegateActionNodeAny.initState "t" "m1")
        { robot_id := "w2", mission_id := "zzz" }).1.remote_identified = true ∧
     (DelegateActionNodeAny.mission_poll_callback (DelegateActionNodeAny.initState "t" "m1")
        { robot_id := "w2", mission_id := "zzz" }).2 =
       [("/" ++ "w2" ++ "/mission_command",
         { robot_id := "w2", mission_tree := "t" })]) :=
  ⟨⟨rfl, by decide⟩,
   C2_no_mission_id_check (DelegateActionNodeAny.initState "t" "m1")
     { robot_id := "w2", mission_id := "zzz" } rfl (by decide)⟩

end BF

namespace BF

open DelegateActionNodeAny RemoteDelegateActionNode

/-- C4 counterexample: a delegator with no claim received keeps
publishing the poll on every tick — five consecutive ticks publish five
poll messages and leave the state exactly as it was, so polling continues
indefinitely; no timeout or `NoRespondentError` path exists in `tick`. -/
theorem C4_counterexample :
    (tickN 5 (DelegateActionNodeAny.initState "t" "m1")).2.length = 5 ∧
    (tickN 5 (DelegateActionNodeAny.initState "t" "m1")).1 =
      DelegateActionNodeAny.initState "t" "m1" := by
  exact ⟨rfl, rfl⟩

/-- C4 (amended): the delegator has no claim timeout: while no remote is
identified, every tick publishes the poll message (carrying only the
mission id) on the current command topic and leaves the state unchanged,
so after `n` ticks with no claim the delegator has published `n` polls
and is still unbound; the round is never abandoned and no
`NoRespondentError` is ever reported. -/
theorem C4_polls_forever (s : DelState) (h : s.remote_identified = false)
    (n : Nat) :
    tickN n s =
      (s, List.replicate n (s.mission_pub_topic, { mission_id := s.mission_id })) := by
  induction n with
  | zero => simp [tickN]
  | succ k ih =>
    have ht : tick s =
        (s, [(s.mission_pub_topic, { mission_id := s.mission_id })], .running) := by
      simp [tick, h]
    simp [tickN, ht, ih, List.replicate_succ]

/-- C4 witness: three claimless ticks from the constructor state produce
three polls and an unchanged state. -/
theorem C4_polls_forever_witness :
    (DelegateActionNodeAny.initState "t" "m1").remote_identified = false ∧
    tickN 3 (DelegateActionNodeAny.initState "t" "m1") =
      (DelegateActionNodeAny.initState "t" "m1",
       List.replicate 3 ("/mission_command", { mission_id := "m1" })) :=
  ⟨rfl, C4_polls_forever (DelegateActionNodeAny.initState "t" "m1") rfl 3⟩

/-- C5 counterexample: a delegator whose mission tree payload is the
empty string (empty `graph_definition`) is not rejected: its tick still
publishes the poll, and when a claim arrives the command carrying the
empty `mission_tree` is published onto the bus — there is no
`InvalidMission` check anywhere. -/
theorem C5_counterexample :
    (tick (DelegateActionNodeAny.initState "" "m1")).2.1 =
      [("/mission_command", { mission_id := "m1" })] ∧
    (DelegateActionNodeAny.mission_poll_callback
        (DelegateActionNodeAny.initState "" "m1")
        { robot_id := "w1", mission_id := "m1" }).2 =
      [("/w1/mission_command",
        { robot_id := "w1", mission_tree := "" })] := by
  exact ⟨rfl, rfl⟩

/-- C5 (amended): an empty mission tree payload is never validated: an
unbound delegator with empty `remote_tree_` publishes the poll on every
tick just as with a non-empty tree, and the first claim received causes a
command whose `mission_tree` is the empty string to be published to the
claimant — the empty tree is sent onto the bus. -/
theorem C5_empty_tree_not_rejected (s : DelState) (m : MissionStatus)
    (h : s.remote_identified = false) (he : s.remote_tree = "") :
    (tick s).2.1 = [(s.mission_pub_topic, { mission_id := s.mission_id })] ∧
    (DelegateActionNodeAny.mission_poll_callback s m).2 =
      [("/" ++ m.robot_id ++ "/mission_command",
        { robot_id := m.robot_id, mission_tree := "" })] := by
  constructor
  · simp [tick, h]
  · simp [DelegateActionNodeAny.mission_poll_callback, h, he]

/-- C5 witness: the amended claim at the constructor state with an empty
tree file. -/
theorem C5_empty_tree_not_rejected_witness :
    ((DelegateActionNodeAny.initState "" "m1").remote_identified = false ∧
     (DelegateActionNodeAny.initState "" "m1").remote_tree = "") ∧
    ((tick (DelegateActionNodeAny.initState "" "m1")).2.1 =
       [("/mission_command", { mission_id := "m1" })] ∧
     (DelegateActionNodeAny.mission_poll_callback
         (DelegateActionNodeAny.initState "" "m1")
         { robot_id := "w1", mission_id := "m1" }).2 =
       [("/" ++ "w1" ++ "/mission_command",
         { robot_id := "w1", mission_tree := "" })]) :=
  ⟨⟨rfl, rfl⟩,
   C5_empty_tree_not_rejected (DelegateActionNodeAny.initState "" "m1")
     { robot_id := "w1", mission_id := "m1" } rfl rfl⟩

/-- C9: the delegator's binding is permanent: once `remote_identified_`
is true, `tick` publishes nothing and changes nothing, every further
message on the poll topic is a strict no-op, and the status callback
never resets the flag nor changes the bound remote id — so the delegator
never rebinds, even after a terminal status has been observed. -/
theorem C9_binding_permanent (s : DelState) (h : s.remote_identified = true) :
    (tick s).1 = s ∧ (tick s).2.1 = [] ∧
    (∀ m, DelegateActionNodeAny.mission_poll_callback s m = (s, [])) ∧
    (∀ m, (remote_status_callback s m).remote_identified = true ∧
          (remote_status_callback s m).remote_id = s.remote_id) := by
  refine ⟨?_, ?_, fun m => mission_poll_callback_identified s m h,
    fun m => ⟨by simp [remote_status_callback, h], by simp [remote_status_callback]⟩⟩
  · unfold tick
    rw [h]
    cases s.remote_status
    · simp
    · simp
      split_ifs <;> rfl
  · unfold tick
    rw [h]
    cases s.remote_status
    · simp
    · simp
      split_ifs <;> rfl

/-- C9 witness: a bound delegator (after one claim) holding a terminal
SUCCESS status still changes nothing and publishes nothing, and ignores a
rival claim. -/
theorem C9_binding_permanent_witness :
    (remote_status_callback
        (DelegateActionNodeAny.mission_poll_callback
          (DelegateActionNodeAny.initState "t" "m1")
          { robot_id := "w1", mission_id := "m1" }).1
        { robot_id := "w1", status := ST_SUCCESS }).remote_identified = true ∧
    (tick (remote_status_callback
        (DelegateActionNodeAny.mission_poll_callback
          (DelegateActionNodeAny.initState "t" "m1")
          { robot_id := "w1", mission_id := "m1" }).1
        { robot_id := "w1", status := ST_SUCCESS })).2.1 = [] :=
  ⟨rfl,
   (C9_binding_permanent
     (remote_status_callback
       (DelegateActionNodeAny.mission_poll_callback
         (DelegateActionNodeAny.initState "t" "m1")
         { robot_id := "w1", mission_id := "m1" }).1
       { robot_id := "w1", status := ST_SUCCESS }) rfl).2.1⟩

end BF

namespace BF

open DelegateActionNodeAny RemoteDelegateActionNode

/-- C3 counterexample: a worker accepting a command whose tree build
fails publishes an IDLE status (not FAILURE) from the error handler, and
then publishes a FAILURE status on each of the next two control cycles —
so neither is exactly one FAILURE status published, nor do status
publications for the mission stop. -/
theorem C3_counterexample :
    (RemoteDelegateActionNode.mission_callback
        (RemoteDelegateActionNode.initState "r1" "m1")
        { msg_type := Mission.COMMAND, robot_id := "r1" } false).2 =
      [(statusTopic "r1", statusMsg "r1" Mission.IDLE)] ∧
    (runCycles
        (RemoteDelegateActionNode.mission_callback
          (RemoteDelegateActionNode.initState "r1" "m1")
          { msg_type := Mission.COMMAND, robot_id := "r1" } false).1
        [.running, .running]).2.1 =
      [(statusTopic "r1", statusMsg "r1" Mission.FAILURE),
       (statusTopic "r1", statusMsg "r1" Mission.FAILURE)] ∧
    Mission.IDLE ≠ Mission.FAILURE := by
  refine ⟨rfl, rfl, ?_⟩
  decide

/-- C3 (amended): when the worker accepts a command and the tree build
fails, the error handler publishes one IDLE status (not a FAILURE), the
worker does not become working (busy stays cleared) and its capability
flag is cleared; the engine's step function is never invoked for that
mission, and every subsequent control cycle republishes a FAILURE status
(rather than falling silent) until some later message changes the
state. -/
theorem C3_build_failure (s : WorkerState) (msg : Mission)
    (h1 : msg.msg_type = Mission.COMMAND) (h2 : s.working = false)
    (h3 : msg.robot_id = s.id) :
    RemoteDelegateActionNode.mission_callback s msg false =
      ({ s with mission := some msg, working := false, can_do_it := false },
       [(statusTopic s.id, statusMsg s.id Mission.IDLE)]) ∧
    ∀ rs, runCycles
        { s with mission := some msg, working := false, can_do_it := false } rs =
      ({ s with mission := some msg, working := false, can_do_it := false },
       List.replicate rs.length (statusTopic s.id, statusMsg s.id Mission.FAILURE),
       0) := by
  constructor
  · simp [RemoteDelegateActionNode.mission_callback, create_tree, h1, h2, h3]
  · intro rs
    exact runCycles_incapable _ rs rfl rfl

/-- C3 witness: the amended claim at the counterexample's input, checked
over two subsequent control cycles. -/
theorem C3_build_failure_witness :
    (RemoteDelegateActionNode.mission_callback
        (RemoteDelegateActionNode.initState "r1" "m1")
        { msg_type := Mission.COMMAND, robot_id := "r1" } false =
      ({ (RemoteDelegateActionNode.initState "r1" "m1") with
          mission := some { msg_type := Mission.COMMAND, robot_id := "r1" },
          working := false, can_do_it := false },
       [(statusTopic "r1", statusMsg "r1" Mission.IDLE)])) ∧
    (runCycles
        { (RemoteDelegateActionNode.initState "r1" "m1") with
            mission := some { msg_type := Mission.COMMAND, robot_id := "r1" },
            working := false, can_do_it := false }
        [.running, .running] =
      ({ (RemoteDelegateActionNode.initState "r1" "m1") with
          mission := some { msg_type := Mission.COMMAND, robot_id := "r1" },
          working := false, can_do_it := false },
       List.replicate 2 (statusTopic "r1", statusMsg "r1" Mission.FAILURE),
       0)) :=
  ⟨(C3_build_failure (RemoteDelegateActionNode.initState "r1" "m1")
      { msg_type := Mission.COMMAND, robot_id := "r1" } rfl rfl rfl).1,
   (C3_build_failure (RemoteDelegateActionNode.initState "r1" "m1")
      { msg_type := Mission.COMMAND, robot_id := "r1" } rfl rfl rfl).2
     [.running, .running]⟩

/-- C6: whenever the worker's poll callback publishes anything (a
claim), the worker was not busy and the poll's `mission_id` equals the
worker's capability tag — no claim is ever published while working, and
none when the tags differ. -/
theorem C6_eligibility_filter (s : WorkerState) (msg : Mission)
    (h : (RemoteDelegateActionNode.mission_poll_callback s msg).2 ≠ []) :
    s.working = false ∧ msg.mission_id = s.mission_id := by
  by_cases h1 : msg.msg_type = Mission.COMMAND
  · by_cases h2 : s.working = false
    · by_cases h3 : 0 < msg.robot_id.length ∧ msg.robot_id ≠ s.id
      · simp [RemoteDelegateActionNode.mission_poll_callback, h1, h2, h3] at h
      · by_cases h4 : msg.mission_id = s.mission_id
        · exact ⟨h2, h4⟩
        · simp [RemoteDelegateActionNode.mission_poll_callback, h1, h2, h3, h4] at h
    · simp [RemoteDelegateActionNode.mission_poll_callback, h1, h2] at h
  · simp [RemoteDelegateActionNode.mission_poll_callback, h1] at h

/-- C6 witness: an idle worker with tag `m1` receiving an untargeted poll
for `m1` does publish, and indeed is idle with matching tag. -/
theorem C6_eligibility_filter_witness :
    ((RemoteDelegateActionNode.mission_poll_callback
        (RemoteDelegateActionNode.initState "r1" "m1")
        { msg_type := Mission.COMMAND, mission_id := "m1" }).2 ≠ []) ∧
    ((RemoteDelegateActionNode.initState "r1" "m1").working = false ∧
     ({ msg_type := Mission.COMMAND, mission_id := "m1" } : Mission).mission_id =
       (RemoteDelegateActionNode.initState "r1" "m1").mission_id) :=
  ⟨by decide,
   C6_eligibility_filter (RemoteDelegateActionNode.initState "r1" "m1")
     { msg_type := Mission.COMMAND, mission_id := "m1" } (by decide)⟩

end BF

namespace BF

open DelegateActionNodeAny RemoteDelegateActionNode

/-- C7: on a control cycle of a working worker, the engine's step
function is invoked exactly once and its result is published unchanged
(through `statusCode`) as a status message on the worker's private status
topic; a RUNNING result leaves the state untouched, while SUCCESS or
FAILURE clears `working_`, after which no number of further control
cycles ever invokes the step function again. -/
theorem C7_step_once_and_publish (s : WorkerState) (r : NodeStatus)
    (h : s.working = true) :
    (control_cycle s r).2.2 = 1 ∧
    (control_cycle s r).2.1 =
      [(statusTopic s.id, statusMsg s.id (statusCode r))] ∧
    (r = .running → (control_cycle s r).1 = s) ∧
    ((r = .success ∨ r = .failure) →
      (control_cycle s r).1 = { s with working := false } ∧
      ∀ rs, (runCycles { s with working := false } rs).2.2 = 0) := by
  cases r with
  | running => simp [control_cycle, statusCode, h]
  | success =>
    refine ⟨by simp [control_cycle, h], by simp [control_cycle, statusCode, h],
      by simp, fun _ => ⟨by simp [control_cycle, h], fun rs => runCycles_steps_zero _ rs rfl⟩⟩
  | failure =>
    refine ⟨by simp [control_cycle, h], by simp [control_cycle, statusCode, h],
      by simp, fun _ => ⟨by simp [control_cycle, h], fun rs => runCycles_steps_zero _ rs rfl⟩⟩

/-- C7 witness: a working worker whose engine reports SUCCESS. -/
theorem C7_step_once_and_publish_witness :
    ({ (RemoteDelegateActionNode.initState "r1" "m1") with
        working := true, can_do_it := true } : WorkerState).working = true ∧
    (control_cycle
        { (RemoteDelegateActionNode.initState "r1" "m1") with
            working := true, can_do_it := true } .success).2.2 = 1 ∧
    (control_cycle
        { (RemoteDelegateActionNode.initState "r1" "m1") with
            working := true, can_do_it := true } .success).2.1 =
      [(statusTopic "r1", statusMsg "r1" (statusCode .success))] :=
  ⟨rfl,
   (C7_step_once_and_publish
     { (RemoteDelegateActionNode.initState "r1" "m1") with
         working := true, can_do_it := true } .success rfl).1,
   (C7_step_once_and_publish
     { (RemoteDelegateActionNode.initState "r1" "m1") with
         working := true, can_do_it := true } .success rfl).2.1⟩

/-- C8 counterexample: an idle worker holding a previously stored mission
receives a command addressed to another robot; contrary to the claim of
no state change, its stored mission is overwritten with the foreign
envelope. -/
theorem C8_counterexample :
    (RemoteDelegateActionNode.mission_callback
        { (RemoteDelegateActionNode.initState "r1" "m1") with
            mission := some { mission_id := "old" } }
        { msg_type := Mission.COMMAND, robot_id := "r2" } true).1.mission =
      some { msg_type := Mission.COMMAND, robot_id := "r2" } ∧
    (some { mission_id := "old" } : Option Mission) ≠
      some { msg_type := Mission.COMMAND, robot_id := "r2" } := by
  refine ⟨rfl, ?_⟩
  decide

/-- C8 (amended): a command whose `robot_id` differs from the worker's
own id, received while not working, is dropped without any publication
and without changing the `working_` or `can_do_it_` flags — but the
stored mission (`mission_`) is overwritten with the envelope before the
id check happens; while working, such a command is ignored entirely. -/
theorem C8_mismatched_command (s : WorkerState) (msg : Mission) (b : Bool)
    (h1 : msg.msg_type = Mission.COMMAND) (h3 : msg.robot_id ≠ s.id) :
    (s.working = false →
      RemoteDelegateActionNode.mission_callback s msg b =
        ({ s with mission := some msg }, [])) ∧
    (s.working = true →
      RemoteDelegateActionNode.mission_callback s msg b = (s, [])) := by
  constructor
  · intro h2
    simp [RemoteDelegateActionNode.mission_callback, h1, h2, h3]
  · intro h2
    simp [RemoteDelegateActionNode.mission_callback, h1, h2]

/-- C8 witness: the amended claim at the counterexample's input, for an
idle worker (stored mission overwritten, nothing published) and for a
busy worker (strict no-op). -/
theorem C8_mismatched_command_witness :
    (({ msg_type := Mission.COMMAND, robot_id := "r2" } : Mission).msg_type =
        Mission.COMMAND ∧
     ({ msg_type := Mission.COMMAND, robot_id := "r2" } : Mission).robot_id ≠ "r1") ∧
    RemoteDelegateActionNode.mission_callback
        { (RemoteDelegateActionNode.initState "r1" "m1") with
            mission := some { mission_id := "old" } }
        { msg_type := Mission.COMMAND, robot_id := "r2" } true =
      ({ (RemoteDelegateActionNode.initState "r1" "m1") with
          mission := some { msg_type := Mission.COMMAND, robot_id := "r2" } }, []) ∧
    RemoteDelegateActionNode.mission_callback
        { (RemoteDelegateActionNode.initState "r1" "m1") with
            working := true, mission := some { mission_id := "old" } }
        { msg_type := Mission.COMMAND, robot_id := "r2" } true =
      ({ (RemoteDelegateActionNode.initState "r1" "m1") with
          working := true, mission := some { mission_id := "old" } }, []) :=
  ⟨⟨rfl, by decide⟩,
   (C8_mismatched_command
     { (RemoteDelegateActionNode.initState "r1" "m1") with
         mission := some { mission_id := "old" } }
     { msg_type := Mission.COMMAND, robot_id := "r2" } true rfl (by decide)).1 rfl,
   (C8_mismatched_command
     { (RemoteDelegateActionNode.initState "r1" "m1") with
         working := true, mission := some { mission_id := "old" } }
     { msg_type := Mission.COMMAND, robot_id := "r2" } true rfl (by decide)).2 rfl⟩

/-- C10: a control cycle of a worker that is not working and whose
`can_do_it_` flag is true publishes nothing at all (the IDLE status is
prepared locally but never sent), changes no state, and invokes no
engine step — an idle capable worker emits no liveness signal. -/
theorem C10_idle_is_silent (s : WorkerState) (r : NodeStatus)
    (h1 : s.working = false) (h2 : s.can_do_it = true) :
    control_cycle s r = (s, [], 0) := by
  simp [control_cycle, h1, h2]

/-- C10 witness: an idle capable worker's control cycle is a strict
no-op. -/
theorem C10_idle_is_silent_witness :
    (({ (RemoteDelegateActionNode.initState "r1" "m1") with
          can_do_it := true } : WorkerState).working = false ∧
     ({ (RemoteDelegateActionNode.initState "r1" "m1") with
          can_do_it := true } : WorkerState).can_do_it = true) ∧
    control_cycle
        { (RemoteDelegateActionNode.initState "r1" "m1") with can_do_it := true }
        .running =
      ({ (RemoteDelegateActionNode.initState "r1" "m1") with can_do_it := true },
       [], 0) :=
  ⟨⟨rfl, rfl⟩,
   C10_idle_is_silent
     { (RemoteDelegateActionNode.initState "r1" "m1") with can_do_it := true }
     .running rfl rfl⟩

end BF
